import Mathlib

/-!
Shallow embedding of the debate engine of the aithinktank repository
(EnhancedDebateEngine in the agents module, DatabaseStorage in
server/storage.ts, and the phase-progression routes in server/routes.ts).
Floating point numbers of the source are modelled as rationals; the
asynchronous store is modelled by explicit state passing.
-/

namespace AIThinkTank

/-- Role of a debate argument: the source uses the string union
`proponent | opponent` (field agentRole of DebateArgument). -/
inductive Role where
  | proponent
  | opponent
deriving DecidableEq, Repr

/-- Consensus levels `low | moderate | high`. -/
inductive Consensus where
  | low
  | moderate
  | high
deriving DecidableEq, Repr

/-- Winning position `proponent | opponent | draw`. -/
inductive Position where
  | proponent
  | opponent
  | draw
deriving DecidableEq, Repr

/-- Vote type `up | down`. -/
inductive VoteType where
  | up
  | down
deriving DecidableEq, Repr

/-- Status of a DebateSession: `active | completed | paused`. -/
inductive DebateStatus where
  | active
  | completed
  | paused
deriving DecidableEq, Repr

/-- In-memory DebateArgument of the engine.  The source keeps the vote
counters in a nested object `votes : \x7b up, down, participants \x7d`; the
participants list is never read by the functions under study and is
dropped, and the two counters are inlined as votesUp / votesDown. -/
structure DebateArgument where
  id : String
  agentRole : Role
  roundNumber : Nat
  content : String
  evidenceIds : List String
  strengthScore : ℚ
  votesUp : Nat
  votesDown : Nat
  rebuttalTo : Option String
deriving DecidableEq, Repr

/-- In-memory DebateRound of the engine. -/
structure DebateRound where
  roundNumber : Nat
  solutionId : String
  arguments : List DebateArgument
  roundSummary : Option String
  consensusLevel : Consensus
  completed : Bool
deriving DecidableEq, Repr

/-- In-memory DebateSession of the engine. -/
structure DebateSession where
  sessionId : String
  solutionId : String
  rounds : List DebateRound
  overallConsensus : Consensus
  winningPosition : Option Position
  totalVotes : Nat
  participantCount : Nat
  status : DebateStatus
deriving DecidableEq, Repr

/-- evaluateRoundConsensus: total votes of the round below 5 give low,
mean strength above 7 gives high, otherwise moderate. -/
def evaluateRoundConsensus (round : DebateRound) : Consensus :=
  let totalVotes := round.arguments.foldl (fun sum arg => sum + arg.votesUp + arg.votesDown) 0
  let avgScore : ℚ :=
    round.arguments.foldl (fun sum arg => sum + arg.strengthScore) 0 / (round.arguments.length : ℚ)
  if totalVotes < 5 then Consensus.low
  else if avgScore > 7 then Consensus.high
  else Consensus.moderate

/-- evaluateConsensus: classify the session by the fraction of rounds
whose consensusLevel is high. -/
def evaluateConsensus (rounds : List DebateRound) : Consensus :=
  let totalRounds := rounds.length
  let highConsensusRounds :=
    (rounds.filter (fun r => decide (r.consensusLevel = Consensus.high))).length
  if (highConsensusRounds : ℚ) / (totalRounds : ℚ) > 6/10 then Consensus.high
  else if (highConsensusRounds : ℚ) / (totalRounds : ℚ) > 3/10 then Consensus.moderate
  else Consensus.low

/-- The nested accumulation loop of determineWinner: fold the rounds and
their arguments, adding strengthScore + upvotes - downvotes to the slot
of the owning role. -/
def roleTotals (rounds : List DebateRound) : ℚ × ℚ :=
  rounds.foldl
    (fun scores round =>
      round.arguments.foldl
        (fun scores arg =>
          match arg.agentRole with
          | Role.proponent =>
              (scores.1 + arg.strengthScore + (arg.votesUp : ℚ) - (arg.votesDown : ℚ), scores.2)
          | Role.opponent =>
              (scores.1, scores.2 + arg.strengthScore + (arg.votesUp : ℚ) - (arg.votesDown : ℚ)))
        scores)
    (0, 0)

/-- determineWinner: draw when the totals differ by less than 5, else
the role with the higher total. -/
def determineWinner (rounds : List DebateRound) : Position :=
  let scores := roleTotals rounds
  let difference := |scores.1 - scores.2|
  if difference < 5 then Position.draw
  else if scores.1 > scores.2 then Position.proponent
  else Position.opponent

/-- Persisted Evidence record (shared schema): confidence and
relevanceScore are 0-100 integer columns, modelled as rationals. -/
structure Evidence where
  id : String
  pointId : Option String
  claim : String
  confidence : ℚ
  relevanceScore : ℚ
deriving DecidableEq, Repr

/-- calculateEvidenceStrengthBoost: confidence contributes up to 2
points and relevance up to 1 point. -/
def calculateEvidenceStrengthBoost (evidence : Evidence) : ℚ :=
  let confidenceBoost := (evidence.confidence / 100) * 2
  let relevanceBoost := (evidence.relevanceScore / 100) * 1
  confidenceBoost + relevanceBoost

/-- The in-memory branch of attachEvidence applied to the found
argument: push the evidence id only when absent, then unconditionally
add the boost capped at 10. -/
def attachEvidenceToArgument (argument : DebateArgument) (evidenceId : String)
    (strengthBoost : ℚ) : DebateArgument :=
  let argument :=
    if evidenceId ∈ argument.evidenceIds then argument
    else { argument with evidenceIds := argument.evidenceIds ++ [evidenceId] }
  { argument with strengthScore := min 10 (argument.strengthScore + strengthBoost) }

/-- calculateStrengthScore of session reconstruction: vote-ratio base
plus 0.5 per attached evidence item, capped at 10. -/
def calculateStrengthScore (upvotes downvotes evidenceCount : Nat) : ℚ :=
  let totalVotes := upvotes + downvotes
  let baseScore : ℚ := if totalVotes > 0 then ((upvotes : ℚ) / (totalVotes : ℚ)) * 10 else 5
  let evidenceBoost : ℚ := (evidenceCount : ℚ) * (1/2)
  min 10 (baseScore + evidenceBoost)

/-- Persisted debate point row (debate_points table).  The createdAt
timestamp column is dropped: no derived computation reads it. -/
structure StoredPoint where
  id : String
  sessionId : String
  solutionId : String
  agent : Role
  round : Nat
  content : String
  rebuttalTo : Option String
  upvotes : Nat
  downvotes : Nat
deriving DecidableEq, Repr

/-- Vote row to insert: (userId, pointId, voteType). -/
structure InsertVote where
  userId : String
  pointId : String
  voteType : VoteType
deriving DecidableEq, Repr

/-- The persistent store as read and written by the voting subsystem:
the votes table and the debate_points table. -/
structure VoteStore where
  votes : List InsertVote
  points : List StoredPoint
deriving DecidableEq, Repr

/-- Result shape of createVoteWithCountUpdate. -/
structure CreateVoteResult where
  success : Bool
  vote : Option InsertVote
  message : Option String
deriving DecidableEq, Repr

/-- createVoteWithCountUpdate: inside one transaction, check for an
existing vote by the same user on the same point, insert the vote, and
increment the matching counter of the point; a duplicate aborts the
transaction, leaving the store unchanged. -/
def createVoteWithCountUpdate (store : VoteStore) (vote : InsertVote) :
    VoteStore × CreateVoteResult :=
  if store.votes.any (fun w => w.userId == vote.userId && w.pointId == vote.pointId) then
    (store, { success := false, vote := none, message := some "User already voted on this point" })
  else
    let isUpvote := vote.voteType == VoteType.up
    let points := store.points.map (fun p =>
      if p.id == vote.pointId then
        { p with upvotes := if isUpvote then p.upvotes + 1 else p.upvotes,
                 downvotes := if !isUpvote then p.downvotes + 1 else p.downvotes }
      else p)
    ({ votes := store.votes ++ [vote], points := points },
     { success := true, vote := some vote, message := none })

/-- getDebatePoint: select by id with limit 1. -/
def getDebatePoint (store : VoteStore) (id : String) : Option StoredPoint :=
  (store.points.filter (fun p => p.id == id)).head?

/-- Impact part of a VoteResult. -/
structure VoteImpact where
  newScore : ℚ
  consensusShift : ℚ
deriving DecidableEq, Repr

/-- VoteResult returned by voteOnArgument. -/
structure VoteResult where
  argumentId : String
  voteType : VoteType
  userId : String
  impact : VoteImpact
deriving DecidableEq, Repr

/-- voteOnArgument of the engine: atomic vote creation, failure raises
the stored message, then the new score is recomputed from the updated
counters and the consensus shift is its distance from neutral. -/
def voteOnArgument (store : VoteStore) (argumentId : String) (voteType : VoteType)
    (userId : String) : Except String (VoteStore × VoteResult) :=
  let voteResult := createVoteWithCountUpdate store
    { userId := userId, pointId := argumentId, voteType := voteType }
  if !voteResult.2.success then
    Except.error (voteResult.2.message.getD "Failed to record vote")
  else
    match getDebatePoint voteResult.1 argumentId with
    | none => Except.error "Debate point not found after vote update"
    | some updatedDebatePoint =>
      let newUpvotes := updatedDebatePoint.upvotes
      let newDownvotes := updatedDebatePoint.downvotes
      let totalVotes := newUpvotes + newDownvotes
      let newScore : ℚ :=
        if totalVotes > 0 then ((newUpvotes : ℚ) / (totalVotes : ℚ)) * 10 else 5
      Except.ok (voteResult.1,
        { argumentId := argumentId, voteType := voteType, userId := userId,
          impact := { newScore := newScore, consensusShift := |newScore - 5| } })

/-- Test harness: run a sequence of votes on one argument through
createVoteWithCountUpdate, threading the store. -/
def applyVotes (store : VoteStore) (argumentId : String)
    (votes : List (String × VoteType)) : VoteStore :=
  votes.foldl
    (fun st uv =>
      (createVoteWithCountUpdate st
        { userId := uv.1, pointId := argumentId, voteType := uv.2 }).1)
    store

/-- Rendering of a consensus level, as interpolated into the fallback
round summary template. -/
def consensusText : Consensus → String
  | Consensus.low => "low"
  | Consensus.moderate => "moderate"
  | Consensus.high => "high"

/-- Rendering of a role, as interpolated into the debate point title. -/
def roleText : Role → String
  | Role.proponent => "proponent"
  | Role.opponent => "opponent"

/-- Debate point row handed to storage.createDebatePoint. -/
structure InsertDebatePoint where
  sessionId : String
  solutionId : String
  agent : Role
  pointNumber : Nat
  round : Nat
  title : String
  content : String
  rebuttalTo : Option String
deriving DecidableEq, Repr

/-- saveDebatePoint of the engine: build the insert row; pointNumber and
round both take the round number, and a missing rebuttalTo is stored as
null. -/
def saveDebatePoint (sessionId solutionId : String) (agent : Role) (roundNumber : Nat)
    (content : String) (rebuttalTo : Option String) : InsertDebatePoint :=
  { sessionId := sessionId, solutionId := solutionId, agent := agent,
    pointNumber := roundNumber, round := roundNumber,
    title := roleText agent ++ " argument round " ++ toString roundNumber,
    content := content, rebuttalTo := rebuttalTo }

/-- The evidence-attachment step of the round loop: push the gathered
evidence id onto the first argument whose content matches the claim
(Array.prototype.find followed by an in-place push); no match discards
the evidence silently. -/
def pushEvidenceToFirstMatch (args : List DebateArgument)
    (matcher : DebateArgument → Bool) (evidenceId : String) : List DebateArgument :=
  match args with
  | [] => []
  | a :: rest =>
      if matcher a then { a with evidenceIds := a.evidenceIds ++ [evidenceId] } :: rest
      else a :: pushEvidenceToFirstMatch rest matcher evidenceId

/-- Fold of the per-claim evidence loop over the gathered items. -/
def attachGatheredEvidence (args : List DebateArgument)
    (gathered : List ((DebateArgument → Bool) × String)) : List DebateArgument :=
  gathered.foldl (fun args g => pushEvidenceToFirstMatch args g.1 g.2) args

/-- Outcomes of the external collaborators during one round, passed in
as pure data: the two generated argument texts, the ids the store
assigns to the two persisted points, the gathered evidence items (each
a content matcher derived from the claim text plus the id of the saved
evidence row), and the moderator round summary (none models a
generation failure, which falls back to the template). -/
structure RoundGeneration where
  proponentContent : String
  opponentContent : String
  proponentId : String
  opponentId : String
  gatheredEvidence : List ((DebateArgument → Bool) × String)
  summaryResult : Option String

/-- conductDebateRound: persist the proponent argument, persist the
opponent argument with rebuttalTo set to the proponent point id, push
both in-memory arguments with neutral score 5.0 and zero votes, attach
the gathered evidence (at most two items), fill the round summary with
the generated text or the deterministic fallback template, then set the
round consensus and mark the round completed.  Returns the final round
and the two insert rows handed to storage. -/
def conductDebateRound (roundNumber : Nat) (solutionId sessionId : String)
    (gen : RoundGeneration) : DebateRound × InsertDebatePoint × InsertDebatePoint :=
  let proponentInsert := saveDebatePoint sessionId solutionId Role.proponent roundNumber
    gen.proponentContent none
  let proponentArg : DebateArgument :=
    { id := gen.proponentId, agentRole := Role.proponent, roundNumber := roundNumber,
      content := gen.proponentContent, evidenceIds := [], strengthScore := 5,
      votesUp := 0, votesDown := 0, rebuttalTo := none }
  let opponentInsert := saveDebatePoint sessionId solutionId Role.opponent roundNumber
    gen.opponentContent (some gen.proponentId)
  let opponentArg : DebateArgument :=
    { id := gen.opponentId, agentRole := Role.opponent, roundNumber := roundNumber,
      content := gen.opponentContent, evidenceIds := [], strengthScore := 5,
      votesUp := 0, votesDown := 0, rebuttalTo := some gen.proponentId }
  let round0 : DebateRound :=
    { roundNumber := roundNumber, solutionId := solutionId,
      arguments := attachGatheredEvidence [proponentArg, opponentArg]
        (gen.gatheredEvidence.take 2),
      roundSummary := none, consensusLevel := Consensus.low, completed := false }
  let summary :=
    match gen.summaryResult with
    | some content => content
    | none =>
        "Round " ++ toString roundNumber ++ ": Debate between proponent and opponent with "
          ++ toString round0.arguments.length ++ " arguments. Consensus level: "
          ++ consensusText round0.consensusLevel ++ "."
  let round1 := { round0 with roundSummary := some summary }
  let round2 := { round1 with consensusLevel := evaluateRoundConsensus round1, completed := true }
  (round2, proponentInsert, opponentInsert)

/-- Per-argument step of session reconstruction: the argument rebuilt
from a stored point and the evidence rows linked to it. -/
def reconstructedArgument (point : StoredPoint) (pointEvidence : List Evidence) : DebateArgument :=
  { id := point.id, agentRole := point.agent, roundNumber := point.round,
    content := point.content, evidenceIds := pointEvidence.map Evidence.id,
    strengthScore := calculateStrengthScore point.upvotes point.downvotes pointEvidence.length,
    votesUp := point.upvotes, votesDown := point.downvotes,
    rebuttalTo := point.rebuttalTo }

/-- The grouping loop of getDebateSession: insertion-ordered map from
round number to round, appending each rebuilt argument to its round. -/
def groupIntoRounds (debatePoints : List StoredPoint) (evidence : List Evidence) :
    List DebateRound :=
  debatePoints.foldl
    (fun rounds point =>
      let pointEvidence := evidence.filter (fun e => e.pointId == some point.id)
      let arg := reconstructedArgument point pointEvidence
      if rounds.any (fun r => r.roundNumber == point.round) then
        rounds.map (fun r =>
          if r.roundNumber == point.round then { r with arguments := r.arguments ++ [arg] }
          else r)
      else
        rounds ++ [{ roundNumber := point.round, solutionId := point.solutionId,
                     arguments := [arg], roundSummary := none,
                     consensusLevel := Consensus.low, completed := true }])
    []

/-- getDebateSession: rebuild the DebateSession from the stored points
and evidence; rounds are sorted by round number, each round consensus
is recomputed, and overall consensus plus winner are derived. -/
def getDebateSession (sessionId : String) (solutionIds : List String)
    (debatePoints : List StoredPoint) (evidence : List Evidence) : DebateSession :=
  let sortedRounds := (groupIntoRounds debatePoints evidence).mergeSort
    (fun a b => a.roundNumber ≤ b.roundNumber)
  let sortedRounds := sortedRounds.map
    (fun r => { r with consensusLevel := evaluateRoundConsensus r })
  { sessionId := sessionId,
    solutionId := solutionIds.headD "",
    rounds := sortedRounds,
    overallConsensus := evaluateConsensus sortedRounds,
    winningPosition := some (determineWinner sortedRounds),
    totalVotes := debatePoints.foldl (fun sum p => sum + p.upvotes + p.downvotes) 0,
    participantCount := 0,
    status := DebateStatus.completed }

/-- Status of the outer workflow Session: draft, in_progress or
completed (schema default draft). -/
inductive SessionStatus where
  | draft
  | in_progress
  | completed
deriving DecidableEq, Repr

/-- Outer workflow session: current phase (schema default 1), completed
phases (schema default empty) and status. -/
structure Session where
  currentPhase : Nat
  completedPhases : List Nat
  status : SessionStatus
deriving DecidableEq, Repr

/-- The progress-phase route: reject a session already at phase 6 or
beyond, else advance one phase, record the phase being left, and set
the status (the isCompleted test mirrors the source even though it can
never hold under the guard). -/
def progressPhase (session : Session) : Option Session :=
  if session.currentPhase ≥ 6 then none
  else
    let nextPhase := session.currentPhase + 1
    let isCompleted := decide (nextPhase > 6)
    some { currentPhase := if isCompleted then 6 else nextPhase,
           completedPhases := session.completedPhases ++ [session.currentPhase],
           status := if isCompleted then SessionStatus.completed else SessionStatus.in_progress }

/-- The summary upsert route: saving a summary marks the session
completed, forces phase 6, and records all six phases as completed. -/
def saveSummaryUpdate (session : Session) : Session :=
  { session with
    status := SessionStatus.completed
    currentPhase := 6
    completedPhases := [1, 2, 3, 4, 5, 6] }

/-- A freshly created session under the schema defaults. -/
def initialSession : Session :=
  { currentPhase := 1, completedPhases := [], status := SessionStatus.draft }

/-- One step of the phase state machine: either the progress-phase
route succeeds, or a summary is saved. -/
inductive SessionStep : Session → Session → Prop where
  | progress (s s2 : Session) : progressPhase s = some s2 → SessionStep s s2
  | summary (s : Session) : SessionStep s (saveSummaryUpdate s)

/-- Sessions reachable from the initial session through the two
session-mutating routes. -/
inductive ReachableSession : Session → Prop where
  | init : ReachableSession initialSession
  | step (s s2 : Session) : ReachableSession s → SessionStep s s2 → ReachableSession s2

/-- Net contribution of one argument to the totals of determineWinner:
strengthScore + upvotes - downvotes. -/
def argNet (arg : DebateArgument) : ℚ :=
  arg.strengthScore + (arg.votesUp : ℚ) - (arg.votesDown : ℚ)

/-- Concrete argument for the evidence-attachment scenarios: a freshly
created debate argument (neutral score 5.0, no votes, no evidence). -/
def c3Argument : DebateArgument :=
  { id := "a1"
    agentRole := Role.proponent
    roundNumber := 1
    content := "text"
    evidenceIds := []
    strengthScore := 5
    votesUp := 0
    votesDown := 0
    rebuttalTo := none }

/-- Concrete evidence with the confidence 75 and relevance 80 that the
round conductor assigns to AI fact-check evidence. -/
def c3Evidence : Evidence :=
  { id := "e1"
    pointId := none
    claim := "claim text"
    confidence := 75
    relevanceScore := 80 }

/-- Round whose totals are 12 for the proponent and 5 for the opponent. -/
def c6WinRounds : List DebateRound :=
  [{ roundNumber := 1
     solutionId := "sol"
     arguments :=
       [{ id := "p1"
          agentRole := Role.proponent
          roundNumber := 1
          content := "pro"
          evidenceIds := []
          strengthScore := 10
          votesUp := 2
          votesDown := 0
          rebuttalTo := none },
        { id := "o1"
          agentRole := Role.opponent
          roundNumber := 1
          content := "con"
          evidenceIds := []
          strengthScore := 5
          votesUp := 0
          votesDown := 0
          rebuttalTo := some "p1" }]
     roundSummary := none
     consensusLevel := Consensus.moderate
     completed := true }]

/-- Round whose totals are 9 for the proponent and 6 for the opponent. -/
def c6DrawRounds : List DebateRound :=
  [{ roundNumber := 1
     solutionId := "sol"
     arguments :=
       [{ id := "p1"
          agentRole := Role.proponent
          roundNumber := 1
          content := "pro"
          evidenceIds := []
          strengthScore := 9
          votesUp := 0
          votesDown := 0
          rebuttalTo := none },
        { id := "o1"
          agentRole := Role.opponent
          roundNumber := 1
          content := "con"
          evidenceIds := []
          strengthScore := 6
          votesUp := 0
          votesDown := 0
          rebuttalTo := some "p1" }]
     roundSummary := none
     consensusLevel := Consensus.moderate
     completed := true }]

/-- A round carrying only a consensus level, for the session-consensus
witness. -/
def consensusOnlyRound (n : Nat) (level : Consensus) : DebateRound :=
  { roundNumber := n
    solutionId := "sol"
    arguments := []
    roundSummary := none
    consensusLevel := level
    completed := true }

/-- Four rounds, three of them with high consensus. -/
def c7Rounds : List DebateRound :=
  [consensusOnlyRound 1 Consensus.high,
   consensusOnlyRound 2 Consensus.high,
   consensusOnlyRound 3 Consensus.high,
   consensusOnlyRound 4 Consensus.low]

/-- A stored debate point with zero votes, for the voting scenarios. -/
def c1Point : StoredPoint :=
  { id := "a1"
    sessionId := "s1"
    solutionId := "sol1"
    agent := Role.proponent
    round := 1
    content := "argument text"
    rebuttalTo := none
    upvotes := 0
    downvotes := 0 }

/-- Store holding one unvoted point. -/
def c1Store : VoteStore := { votes := [], points := [c1Point] }

/-- Store in which user u1 already voted on point a1. -/
def c1DupStore : VoteStore :=
  { votes := [{ userId := "u1", pointId := "a1", voteType := VoteType.up }]
    points := [c1Point] }

/-- A stored debate point with zero votes, for the vote-score scenario. -/
def c4Point : StoredPoint :=
  { id := "a1"
    sessionId := "s1"
    solutionId := "sol1"
    agent := Role.proponent
    round := 1
    content := "argument text"
    rebuttalTo := none
    upvotes := 0
    downvotes := 0 }

/-- Store holding one unvoted point, for the vote-score scenario. -/
def c4Store : VoteStore := { votes := [], points := [c4Point] }

/-- The point after one upvote. -/
def c4PointAfter : StoredPoint := { c4Point with upvotes := 1 }

/-- The store after user u1 upvotes point a1. -/
def c4StoreAfter : VoteStore :=
  { votes := [{ userId := "u1", pointId := "a1", voteType := VoteType.up }]
    points := [c4PointAfter] }

/-- The vote result produced by that upvote: score 10, shift 5. -/
def c4Result : VoteResult :=
  { argumentId := "a1"
    voteType := VoteType.up
    userId := "u1"
    impact := { newScore := 10, consensusShift := 5 } }

/-- A stored debate point with zero votes for the live-versus-rebuilt
comparison. -/
def c2Point : StoredPoint :=
  { id := "p1"
    sessionId := "s1"
    solutionId := "sol1"
    agent := Role.proponent
    round := 1
    content := "text"
    rebuttalTo := none
    upvotes := 0
    downvotes := 0 }

/-- Evidence linked to that point, with the confidence 75 and relevance
80 the round conductor assigns to fact-check evidence. -/
def c2Evidence : Evidence :=
  { id := "e1"
    pointId := some "p1"
    claim := "claim"
    confidence := 75
    relevanceScore := 80 }

/-- The same argument as held in memory during live orchestration,
freshly created with the neutral score 5.0. -/
def c2LiveArgument : DebateArgument :=
  { id := "p1"
    agentRole := Role.proponent
    roundNumber := 1
    content := "text"
    evidenceIds := []
    strengthScore := 5
    votesUp := 0
    votesDown := 0
    rebuttalTo := none }

lemma roleTotals_args_foldl (args : List DebateArgument) (init : ℚ × ℚ) :
    args.foldl
      (fun scores arg =>
        match arg.agentRole with
        | Role.proponent =>
            (scores.1 + arg.strengthScore + (arg.votesUp : ℚ) - (arg.votesDown : ℚ), scores.2)
        | Role.opponent =>
            (scores.1, scores.2 + arg.strengthScore + (arg.votesUp : ℚ) - (arg.votesDown : ℚ)))
      init
    = (init.1 + ((args.filter (fun a => decide (a.agentRole = Role.proponent))).map argNet).sum,
       init.2 + ((args.filter (fun a => decide (a.agentRole = Role.opponent))).map argNet).sum) := by
  induction args generalizing init with
  | nil => simp
  | cons arg rest ih =>
    cases harg : arg.agentRole with
    | proponent =>
      simp only [List.foldl_cons, harg, List.filter_cons, decide_eq_true_eq, harg]
      rw [ih]
      simp [harg, argNet]
      ring
    | opponent =>
      simp only [List.foldl_cons, harg, List.filter_cons, decide_eq_true_eq, harg]
      rw [ih]
      simp [harg, argNet]
      ring

lemma roleTotals_eq_sums (rounds : List DebateRound) :
    roleTotals rounds
    = ((((rounds.flatMap DebateRound.arguments).filter
          (fun a => decide (a.agentRole = Role.proponent))).map argNet).sum,
       (((rounds.flatMap DebateRound.arguments).filter
          (fun a => decide (a.agentRole = Role.opponent))).map argNet).sum) := by
  suffices h : ∀ init : ℚ × ℚ,
      rounds.foldl
        (fun scores round =>
          round.arguments.foldl
            (fun scores arg =>
              match arg.agentRole with
              | Role.proponent =>
                  (scores.1 + arg.strengthScore + (arg.votesUp : ℚ) - (arg.votesDown : ℚ), scores.2)
              | Role.opponent =>
                  (scores.1, scores.2 + arg.strengthScore + (arg.votesUp : ℚ) - (arg.votesDown : ℚ)))
            scores)
        init
      = (init.1 + (((rounds.flatMap DebateRound.arguments).filter
            (fun a => decide (a.agentRole = Role.proponent))).map argNet).sum,
         init.2 + (((rounds.flatMap DebateRound.arguments).filter
            (fun a => decide (a.agentRole = Role.opponent))).map argNet).sum) by
    rw [roleTotals, h (0, 0)]
    simp
  induction rounds with
  | nil => intro init; simp
  | cons round rest ih =>
    intro init
    rw [List.foldl_cons, ih]
    simp only [roleTotals_args_foldl, List.flatMap_cons, List.filter_append, List.map_append,
      List.sum_append, Prod.mk.injEq]
    constructor <;> ring


lemma attachEvidence_evidenceIds (argument : DebateArgument) (evidenceId : String)
    (strengthBoost : ℚ) :
    (attachEvidenceToArgument argument evidenceId strengthBoost).evidenceIds
      = if evidenceId ∈ argument.evidenceIds then argument.evidenceIds
        else argument.evidenceIds ++ [evidenceId] := by
  simp only [attachEvidenceToArgument]
  split <;> rfl

lemma attachEvidence_strengthScore (argument : DebateArgument) (evidenceId : String)
    (strengthBoost : ℚ) :
    (attachEvidenceToArgument argument evidenceId strengthBoost).strengthScore
      = min 10 (argument.strengthScore + strengthBoost) := by
  simp only [attachEvidenceToArgument]
  split <;> rfl

lemma attachEvidence_mem (argument : DebateArgument) (evidenceId : String)
    (strengthBoost : ℚ) :
    evidenceId ∈ (attachEvidenceToArgument argument evidenceId strengthBoost).evidenceIds := by
  rw [attachEvidence_evidenceIds]
  split
  · assumption
  · simp

/-- C6: for every debate session, letting each role total be the sum over
all rounds of strengthScore + upvotes - downvotes of that role, the
winner is draw when the totals differ by less than 5 and otherwise the
role with the strictly higher total. -/
theorem determineWinner_totals_spec (rounds : List DebateRound) (pT oT : ℚ)
    (hp : pT = (((rounds.flatMap DebateRound.arguments).filter
        (fun a => decide (a.agentRole = Role.proponent))).map argNet).sum)
    (ho : oT = (((rounds.flatMap DebateRound.arguments).filter
        (fun a => decide (a.agentRole = Role.opponent))).map argNet).sum) :
    (|pT - oT| < 5 → determineWinner rounds = Position.draw) ∧
    (5 ≤ |pT - oT| → oT < pT → determineWinner rounds = Position.proponent) ∧
    (5 ≤ |pT - oT| → pT < oT → determineWinner rounds = Position.opponent) := by
  subst hp ho
  simp only [determineWinner, roleTotals_eq_sums]
  refine ⟨fun h1 => ?_, fun h1 h2 => ?_, fun h1 h2 => ?_⟩
  · rw [if_pos h1]
  · rw [if_neg (not_lt.mpr h1), if_pos h2]
  · rw [if_neg (not_lt.mpr h1), if_neg (not_lt.mpr (le_of_lt h2))]

/-- Witness for C6: totals 12 versus 5 give the proponent the win, and
totals 9 versus 6 give a draw. -/
theorem determineWinner_totals_spec_witness :
    determineWinner c6WinRounds = Position.proponent ∧
    determineWinner c6DrawRounds = Position.draw := by
  constructor
  · exact (determineWinner_totals_spec c6WinRounds 12 5
      (by simp [c6WinRounds, argNet] <;> norm_num)
      (by simp [c6WinRounds, argNet] <;> norm_num)).2.1 (by norm_num) (by norm_num)
  · exact (determineWinner_totals_spec c6DrawRounds 9 6
      (by simp [c6DrawRounds, argNet] <;> norm_num)
      (by simp [c6DrawRounds, argNet] <;> norm_num)).1 (by norm_num)

/-- C7: with at least one round, letting h be the fraction of rounds with
high consensus, the overall consensus is high when h exceeds 0.6,
moderate when h is above 0.3 and at most 0.6, and low otherwise. -/
theorem evaluateConsensus_fraction_spec (rounds : List DebateRound)
    (_hne : rounds ≠ []) (hfrac : ℚ)
    (hdef : hfrac = ((rounds.filter
        (fun r => decide (r.consensusLevel = Consensus.high))).length : ℚ)
      / (rounds.length : ℚ)) :
    (6/10 < hfrac → evaluateConsensus rounds = Consensus.high) ∧
    (3/10 < hfrac ∧ hfrac ≤ 6/10 → evaluateConsensus rounds = Consensus.moderate) ∧
    (hfrac ≤ 3/10 → evaluateConsensus rounds = Consensus.low) := by
  subst hdef
  simp only [evaluateConsensus]
  refine ⟨fun h1 => ?_, fun h1 => ?_, fun h1 => ?_⟩
  · rw [if_pos h1]
  · rw [if_neg (not_lt.mpr h1.2), if_pos h1.1]
  · rw [if_neg (not_lt.mpr (h1.trans (by norm_num))), if_neg (not_lt.mpr h1)]

/-- Witness for C7: four rounds with three marked high give fraction
0.75 and overall consensus high. -/
theorem evaluateConsensus_fraction_spec_witness :
    evaluateConsensus c7Rounds = Consensus.high := by
  refine (evaluateConsensus_fraction_spec c7Rounds (by simp [c7Rounds]) (3/4) ?_).1 (by norm_num)
  simp [c7Rounds, consensusOnlyRound]

/-- C8: for evidence with confidence and relevance in 0-100, the boost is
confidence/100*2 + relevance/100*1, never exceeds 3, and applying it
gives min 10 (score + boost). -/
theorem evidenceBoost_spec (evidence : Evidence) (argument : DebateArgument)
    (evidenceId : String)
    (hc0 : 0 ≤ evidence.confidence) (hc1 : evidence.confidence ≤ 100)
    (hr0 : 0 ≤ evidence.relevanceScore) (hr1 : evidence.relevanceScore ≤ 100) :
    calculateEvidenceStrengthBoost evidence
      = (evidence.confidence / 100) * 2 + (evidence.relevanceScore / 100) * 1 ∧
    calculateEvidenceStrengthBoost evidence ≤ 3 ∧
    (attachEvidenceToArgument argument evidenceId
        (calculateEvidenceStrengthBoost evidence)).strengthScore
      = min 10 (argument.strengthScore + calculateEvidenceStrengthBoost evidence) := by
  refine ⟨rfl, ?_, attachEvidence_strengthScore argument evidenceId _⟩
  have h2 : evidence.confidence / 100 ≤ 1 := by
    rw [div_le_one (by norm_num : (0:ℚ) < 100)]
    exact hc1
  have h3 : evidence.relevanceScore / 100 ≤ 1 := by
    rw [div_le_one (by norm_num : (0:ℚ) < 100)]
    exact hr1
  simp only [calculateEvidenceStrengthBoost]
  nlinarith

/-- Witness for C8 at confidence 75 and relevance 80. -/
theorem evidenceBoost_spec_witness :
    calculateEvidenceStrengthBoost c3Evidence
      = (c3Evidence.confidence / 100) * 2 + (c3Evidence.relevanceScore / 100) * 1 ∧
    calculateEvidenceStrengthBoost c3Evidence ≤ 3 ∧
    (attachEvidenceToArgument c3Argument "e1"
        (calculateEvidenceStrengthBoost c3Evidence)).strengthScore
      = min 10 (c3Argument.strengthScore + calculateEvidenceStrengthBoost c3Evidence) :=
  evidenceBoost_spec c3Evidence c3Argument "e1"
    (by norm_num [c3Evidence]) (by norm_num [c3Evidence])
    (by norm_num [c3Evidence]) (by norm_num [c3Evidence])

/-- C3 counterexample: attaching the same evidence id twice to the same
fresh argument re-applies the strength boost, so the score after the
second attach (9.6) differs from the score after the first (7.3). -/
theorem attachEvidence_reapplies_boost :
    (attachEvidenceToArgument
        (attachEvidenceToArgument c3Argument "e1" (calculateEvidenceStrengthBoost c3Evidence))
        "e1" (calculateEvidenceStrengthBoost c3Evidence)).strengthScore
      ≠ (attachEvidenceToArgument c3Argument "e1"
          (calculateEvidenceStrengthBoost c3Evidence)).strengthScore := by
  rw [attachEvidence_strengthScore, attachEvidence_strengthScore]
  norm_num [calculateEvidenceStrengthBoost, c3Argument, c3Evidence, inf_eq_min, min_def]

/-- C3 amended: a second attach of the same evidence id does not
duplicate the id in the argument evidence set (and preserves its
deduplication), but it re-applies the strength boost: the score becomes
min 10 (previous score + boost) again rather than staying unchanged. -/
theorem attachEvidence_second_attach_spec (argument : DebateArgument)
    (evidenceId : String) (strengthBoost : ℚ)
    (hnodup : argument.evidenceIds.Nodup) :
    (attachEvidenceToArgument (attachEvidenceToArgument argument evidenceId strengthBoost)
        evidenceId strengthBoost).evidenceIds
      = (attachEvidenceToArgument argument evidenceId strengthBoost).evidenceIds ∧
    (attachEvidenceToArgument (attachEvidenceToArgument argument evidenceId strengthBoost)
        evidenceId strengthBoost).evidenceIds.Nodup ∧
    (attachEvidenceToArgument (attachEvidenceToArgument argument evidenceId strengthBoost)
        evidenceId strengthBoost).strengthScore
      = min 10 ((attachEvidenceToArgument argument evidenceId strengthBoost).strengthScore
          + strengthBoost) := by
  have hsame : (attachEvidenceToArgument (attachEvidenceToArgument argument evidenceId
      strengthBoost) evidenceId strengthBoost).evidenceIds
      = (attachEvidenceToArgument argument evidenceId strengthBoost).evidenceIds := by
    rw [attachEvidence_evidenceIds (attachEvidenceToArgument argument evidenceId strengthBoost)]
    rw [if_pos (attachEvidence_mem argument evidenceId strengthBoost)]
  refine ⟨hsame, ?_, attachEvidence_strengthScore _ evidenceId strengthBoost⟩
  rw [hsame, attachEvidence_evidenceIds]
  split
  · exact hnodup
  · next h =>
      simp [List.nodup_append, hnodup, h]

/-- Witness for the amended C3 at a fresh argument. -/
theorem attachEvidence_second_attach_spec_witness :
    (attachEvidenceToArgument (attachEvidenceToArgument c3Argument "e1" (3/2))
        "e1" (3/2)).evidenceIds
      = (attachEvidenceToArgument c3Argument "e1" (3/2)).evidenceIds ∧
    (attachEvidenceToArgument (attachEvidenceToArgument c3Argument "e1" (3/2))
        "e1" (3/2)).evidenceIds.Nodup ∧
    (attachEvidenceToArgument (attachEvidenceToArgument c3Argument "e1" (3/2))
        "e1" (3/2)).strengthScore
      = min 10 ((attachEvidenceToArgument c3Argument "e1" (3/2)).strengthScore + 3/2) :=
  attachEvidence_second_attach_spec c3Argument "e1" (3/2) (by simp [c3Argument])

lemma createVote_duplicate (store : VoteStore) (vote : InsertVote)
    (hdup : (store.votes.any
      (fun w => w.userId == vote.userId && w.pointId == vote.pointId)) = true) :
    createVoteWithCountUpdate store vote
      = (store, { success := false, vote := none,
                  message := some "User already voted on this point" }) := by
  simp only [createVoteWithCountUpdate, hdup, if_true]

lemma createVote_fresh (store : VoteStore) (vote : InsertVote)
    (hfresh : (store.votes.any
      (fun w => w.userId == vote.userId && w.pointId == vote.pointId)) = false) :
    createVoteWithCountUpdate store vote
      = ({ votes := store.votes ++ [vote]
           points := store.points.map (fun p =>
             if p.id == vote.pointId then
               { p with
                 upvotes := if vote.voteType == VoteType.up then p.upvotes + 1 else p.upvotes
                 downvotes := if !(vote.voteType == VoteType.up) then p.downvotes + 1
                   else p.downvotes }
             else p) },
         { success := true, vote := some vote, message := none }) := by
  have h : ¬ (store.votes.any
      (fun w => w.userId == vote.userId && w.pointId == vote.pointId) = true) := by
    simp [hfresh]
  simp only [createVoteWithCountUpdate, if_neg h]

lemma filter_head_map_id_preserving (points : List StoredPoint)
    (f : StoredPoint → StoredPoint) (hf : ∀ q, (f q).id = q.id) (i : String) :
    ((points.map f).filter (fun p => p.id == i)).head?
      = ((points.filter (fun p => p.id == i)).head?).map f := by
  induction points with
  | nil => rfl
  | cons q rest ih =>
    simp only [List.map_cons, List.filter_cons, hf q]
    by_cases h : (q.id == i) = true
    · simp [h]
    · simp only [h, Bool.false_eq_true, if_false, ih]

lemma getDebatePoint_id (store : VoteStore) (i : String) (p : StoredPoint)
    (hp : getDebatePoint store i = some p) : p.id = i := by
  unfold getDebatePoint at hp
  have hmem : p ∈ store.points.filter (fun q => q.id == i) := by
    cases hfil : store.points.filter (fun q => q.id == i) with
    | nil => rw [hfil] at hp; simp at hp
    | cons a t =>
        rw [hfil] at hp
        simp only [List.head?_cons, Option.some.injEq] at hp
        rw [hp]
        exact List.mem_cons_self p t
  have := List.of_mem_filter hmem
  simpa using this

lemma getDebatePoint_after_fresh_vote (store : VoteStore) (vote : InsertVote) (p : StoredPoint)
    (hfresh : (store.votes.any
      (fun w => w.userId == vote.userId && w.pointId == vote.pointId)) = false)
    (hp : getDebatePoint store vote.pointId = some p) :
    getDebatePoint (createVoteWithCountUpdate store vote).1 vote.pointId
      = some { p with
          upvotes := if vote.voteType == VoteType.up then p.upvotes + 1 else p.upvotes
          downvotes := if !(vote.voteType == VoteType.up) then p.downvotes + 1
            else p.downvotes } := by
  have hid : (p.id == vote.pointId) = true := by
    simp [getDebatePoint_id store vote.pointId p hp]
  rw [createVote_fresh store vote hfresh]
  simp only [getDebatePoint] at hp ⊢
  rw [filter_head_map_id_preserving store.points
      (fun q => if q.id == vote.pointId then
        { q with
          upvotes := if vote.voteType == VoteType.up then q.upvotes + 1 else q.upvotes
          downvotes := if !(vote.voteType == VoteType.up) then q.downvotes + 1
            else q.downvotes }
      else q)
      (fun q => by cases hq : (q.id == vote.pointId) <;> simp [hq]) vote.pointId]
  rw [hp]
  simp [hid]
  intro hcontra
  exact absurd (by simpa using hid) hcontra

lemma applyVotes_counts (votes : List (String × VoteType)) (store : VoteStore)
    (argumentId : String) (p : StoredPoint)
    (hp : getDebatePoint store argumentId = some p)
    (hfresh : ∀ u ∈ votes, ∀ w ∈ store.votes, ¬(w.userId = u.1 ∧ w.pointId = argumentId))
    (hnodup : (votes.map Prod.fst).Nodup) :
    ∃ p2 : StoredPoint,
      getDebatePoint (applyVotes store argumentId votes) argumentId = some p2 ∧
      p2.upvotes = p.upvotes + (votes.filter (fun uv => uv.2 == VoteType.up)).length ∧
      p2.downvotes = p.downvotes + (votes.filter (fun uv => uv.2 == VoteType.down)).length := by
  induction votes generalizing store p with
  | nil => exact ⟨p, by simpa [applyVotes] using hp, by simp, by simp⟩
  | cons uv rest ih =>
    have hfr : (store.votes.any (fun w =>
        w.userId == (⟨uv.1, argumentId, uv.2⟩ : InsertVote).userId
          && w.pointId == (⟨uv.1, argumentId, uv.2⟩ : InsertVote).pointId)) = false := by
      rw [List.any_eq_false]
      intro w hw
      have hnot := hfresh uv (List.mem_cons_self uv rest) w hw
      simp only [Bool.and_eq_true, beq_iff_eq, not_and]
      intro h1 h2
      exact hnot ⟨h1, h2⟩
    have hstep := getDebatePoint_after_fresh_vote store ⟨uv.1, argumentId, uv.2⟩ p hfr hp
    have happ : applyVotes store argumentId (uv :: rest)
        = applyVotes (createVoteWithCountUpdate store ⟨uv.1, argumentId, uv.2⟩).1
            argumentId rest := by
      simp only [applyVotes, List.foldl_cons]
    have hvotes1 : (createVoteWithCountUpdate store ⟨uv.1, argumentId, uv.2⟩).1.votes
        = store.votes ++ [⟨uv.1, argumentId, uv.2⟩] := by
      rw [createVote_fresh store _ hfr]
    have hfresh1 : ∀ u ∈ rest,
        ∀ w ∈ (createVoteWithCountUpdate store ⟨uv.1, argumentId, uv.2⟩).1.votes,
        ¬(w.userId = u.1 ∧ w.pointId = argumentId) := by
      intro u hu w hw
      rw [hvotes1] at hw
      rcases List.mem_append.mp hw with hw1 | hw2
      · exact hfresh u (List.mem_cons_of_mem uv hu) w hw1
      · have hwv : w = ⟨uv.1, argumentId, uv.2⟩ := by simpa using hw2
        subst hwv
        intro hcon
        have hnd : uv.1 ∉ rest.map Prod.fst ∧ (rest.map Prod.fst).Nodup := by
          rw [List.map_cons, List.nodup_cons] at hnodup
          exact hnodup
        have heq : uv.1 = u.1 := hcon.1
        refine hnd.1 ?_
        rw [heq]
        exact List.mem_map_of_mem Prod.fst hu
    have hnodup1 : (rest.map Prod.fst).Nodup := by
      rw [List.map_cons, List.nodup_cons] at hnodup
      exact hnodup.2
    obtain ⟨p2, hgd2, hup2, hdown2⟩ := ih _ _ hstep hfresh1 hnodup1
    refine ⟨p2, happ ▸ hgd2, ?_, ?_⟩
    · rw [hup2]
      cases huv : uv.2 <;> simp [huv] <;> omega
    · rw [hdown2]
      cases huv : uv.2 <;> simp [huv] <;> omega

/-- C1: a duplicate (userId, argumentId) vote fails with the
duplicate-vote error and leaves the store untouched (voteOnArgument
surfaces the error message); a fresh vote is recorded and bumps exactly
the matching counter of the argument by one; and a sequence of votes by
distinct fresh users on one argument with zero counters ends with the
counters equal to the counts of applied up and down votes. -/
theorem vote_duplicate_and_counters :
    (∀ (store : VoteStore) (vote : InsertVote),
      (store.votes.any
        (fun w => w.userId == vote.userId && w.pointId == vote.pointId)) = true →
      createVoteWithCountUpdate store vote
        = (store, { success := false, vote := none,
                    message := some "User already voted on this point" }) ∧
      voteOnArgument store vote.pointId vote.voteType vote.userId
        = Except.error "User already voted on this point") ∧
    (∀ (store : VoteStore) (vote : InsertVote) (p : StoredPoint),
      (store.votes.any
        (fun w => w.userId == vote.userId && w.pointId == vote.pointId)) = false →
      getDebatePoint store vote.pointId = some p →
      (createVoteWithCountUpdate store vote).2.success = true ∧
      (createVoteWithCountUpdate store vote).1.votes = store.votes ++ [vote] ∧
      getDebatePoint (createVoteWithCountUpdate store vote).1 vote.pointId
        = some { p with
            upvotes := if vote.voteType == VoteType.up then p.upvotes + 1 else p.upvotes
            downvotes := if !(vote.voteType == VoteType.up) then p.downvotes + 1
              else p.downvotes }) ∧
    (∀ (store : VoteStore) (argumentId : String) (p : StoredPoint)
        (votes : List (String × VoteType)),
      getDebatePoint store argumentId = some p →
      p.upvotes = 0 → p.downvotes = 0 →
      (∀ u ∈ votes, ∀ w ∈ store.votes, ¬(w.userId = u.1 ∧ w.pointId = argumentId)) →
      (votes.map Prod.fst).Nodup →
      ∃ p2 : StoredPoint,
        getDebatePoint (applyVotes store argumentId votes) argumentId = some p2 ∧
        p2.upvotes = (votes.filter (fun uv => uv.2 == VoteType.up)).length ∧
        p2.downvotes = (votes.filter (fun uv => uv.2 == VoteType.down)).length) := by
  refine ⟨fun store vote hdup => ⟨createVote_duplicate store vote hdup, ?_⟩,
          fun store vote p hfresh hp => ⟨?_, ?_, getDebatePoint_after_fresh_vote store vote p hfresh hp⟩,
          fun store argumentId p votes hp hup hdown hfresh hnodup => ?_⟩
  · simp only [voteOnArgument, createVote_duplicate store vote hdup]
    rfl
  · rw [createVote_fresh store vote hfresh]
  · rw [createVote_fresh store vote hfresh]
  · obtain ⟨p2, hgd, h2, h3⟩ := applyVotes_counts votes store argumentId p hp hfresh hnodup
    exact ⟨p2, hgd, by rw [h2, hup, Nat.zero_add], by rw [h3, hdown, Nat.zero_add]⟩

/-- Witness for C1: a second vote by u1 on a1 is rejected and the store
is unchanged, while three votes by distinct users u1, u2, u3 (up, down,
up) on the unvoted point a1 end with counters (2, 1). -/
theorem vote_duplicate_and_counters_witness :
    (createVoteWithCountUpdate c1DupStore
        { userId := "u1", pointId := "a1", voteType := VoteType.down }
      = (c1DupStore, { success := false, vote := none,
                       message := some "User already voted on this point" })) ∧
    voteOnArgument c1DupStore "a1" VoteType.down "u1"
      = Except.error "User already voted on this point" ∧
    (∃ p2 : StoredPoint,
      getDebatePoint (applyVotes c1Store "a1"
        [("u1", VoteType.up), ("u2", VoteType.down), ("u3", VoteType.up)]) "a1" = some p2 ∧
      p2.upvotes = 2 ∧ p2.downvotes = 1) := by
  obtain ⟨hdup1, hdup2⟩ := vote_duplicate_and_counters.1 c1DupStore
    { userId := "u1", pointId := "a1", voteType := VoteType.down } (by decide)
  refine ⟨hdup1, hdup2, ?_⟩
  obtain ⟨p2, hgd, h2, h3⟩ := vote_duplicate_and_counters.2.2 c1Store "a1" c1Point
    [("u1", VoteType.up), ("u2", VoteType.down), ("u3", VoteType.up)]
    (by decide) (by decide) (by decide) (by decide) (by decide)
  exact ⟨p2, hgd, h2.trans (by decide), h3.trans (by decide)⟩

lemma ratio_score_bounds (up down : Nat) :
    0 ≤ (if up + down > 0 then ((up : ℚ) / ((up + down : ℕ) : ℚ)) * 10 else 5)
    ∧ (if up + down > 0 then ((up : ℚ) / ((up + down : ℕ) : ℚ)) * 10 else 5) ≤ 10 := by
  split
  · next hpos =>
      have htot : (0 : ℚ) < ((up + down : ℕ) : ℚ) := by exact_mod_cast hpos
      have hle : ((up : ℚ)) ≤ ((up + down : ℕ) : ℚ) := by exact_mod_cast Nat.le_add_right up down
      have h1 := (div_le_one htot).mpr hle
      have h0 : (0 : ℚ) ≤ (up : ℚ) / ((up + down : ℕ) : ℚ) := by positivity
      constructor
      · positivity
      · nlinarith
  · norm_num

lemma voteOnArgument_ok (store : VoteStore) (argumentId : String) (voteType : VoteType)
    (userId : String) (store2 : VoteStore) (result : VoteResult)
    (h : voteOnArgument store argumentId voteType userId = Except.ok (store2, result)) :
    ∃ p : StoredPoint, getDebatePoint store2 argumentId = some p ∧
      result.impact.newScore = (if p.upvotes + p.downvotes > 0
        then ((p.upvotes : ℚ) / ((p.upvotes + p.downvotes : ℕ) : ℚ)) * 10 else 5) ∧
      result.impact.consensusShift = |result.impact.newScore - 5| := by
  simp only [voteOnArgument] at h
  split at h
  · exact absurd h (by simp)
  · split at h
    · exact absurd h (by simp)
    · next p hgd =>
        rw [Except.ok.injEq, Prod.mk.injEq] at h
        obtain ⟨hstore, hresult⟩ := h
        subst hstore
        subst hresult
        exact ⟨p, hgd, rfl, rfl⟩

/-- C4: every successful vote returns the score recomputed from the
updated counters as upvotes/(upvotes+downvotes)*10 when any votes exist
and 5.0 otherwise, this score lies in 0..10, and the consensus shift is
its distance from 5.0. -/
theorem voteOnArgument_score_spec (store : VoteStore) (argumentId : String)
    (voteType : VoteType) (userId : String) (store2 : VoteStore) (result : VoteResult)
    (h : voteOnArgument store argumentId voteType userId = Except.ok (store2, result)) :
    ∃ p : StoredPoint, getDebatePoint store2 argumentId = some p ∧
      result.impact.newScore = (if p.upvotes + p.downvotes > 0
        then ((p.upvotes : ℚ) / ((p.upvotes + p.downvotes : ℕ) : ℚ)) * 10 else 5) ∧
      0 ≤ result.impact.newScore ∧ result.impact.newScore ≤ 10 ∧
      result.impact.consensusShift = |result.impact.newScore - 5| := by
  obtain ⟨p, hgd, hscore, hshift⟩ :=
    voteOnArgument_ok store argumentId voteType userId store2 result h
  have hb := ratio_score_bounds p.upvotes p.downvotes
  exact ⟨p, hgd, hscore, hscore ▸ hb.1, hscore ▸ hb.2, hshift⟩

lemma c4_vote_eval :
    voteOnArgument c4Store "a1" VoteType.up "u1" = Except.ok (c4StoreAfter, c4Result) := by
  simp only [voteOnArgument, createVoteWithCountUpdate, getDebatePoint, c4Store, c4Point,
    c4StoreAfter, c4PointAfter, c4Result]
  norm_num

/-- Witness for C4: an upvote on the unvoted point a1 yields score 10
and consensus shift 5. -/
theorem voteOnArgument_score_spec_witness :
    ∃ p : StoredPoint, getDebatePoint c4StoreAfter "a1" = some p ∧
      c4Result.impact.newScore = (if p.upvotes + p.downvotes > 0
        then ((p.upvotes : ℚ) / ((p.upvotes + p.downvotes : ℕ) : ℚ)) * 10 else 5) ∧
      0 ≤ c4Result.impact.newScore ∧ c4Result.impact.newScore ≤ 10 ∧
      c4Result.impact.consensusShift = |c4Result.impact.newScore - 5| :=
  voteOnArgument_score_spec c4Store "a1" VoteType.up "u1" c4StoreAfter c4Result c4_vote_eval

/-- C2 amended: the live vote path and session reconstruction agree on
the derived strength score exactly for arguments with no attached
evidence: after any successful vote, reconstructing the score from the
stored counters with evidence count zero gives the newScore the live
path returned.  With attached evidence the paths diverge, since the
live path adds the confidence/relevance boost while reconstruction
adds 0.5 per evidence item. -/
theorem reconstruction_matches_live_without_evidence (store : VoteStore)
    (argumentId : String) (voteType : VoteType) (userId : String) (store2 : VoteStore)
    (result : VoteResult) (p : StoredPoint)
    (h : voteOnArgument store argumentId voteType userId = Except.ok (store2, result))
    (hp : getDebatePoint store2 argumentId = some p) :
    calculateStrengthScore p.upvotes p.downvotes 0 = result.impact.newScore := by
  obtain ⟨q, hq, hscore, _⟩ :=
    voteOnArgument_ok store argumentId voteType userId store2 result h
  rw [hp] at hq
  obtain rfl : p = q := Option.some.inj hq
  have hb := ratio_score_bounds p.upvotes p.downvotes
  rw [hscore]
  simp only [calculateStrengthScore, Nat.cast_zero, zero_mul, add_zero]
  exact min_eq_right hb.2

/-- Witness for the amended C2: reconstructing the upvoted point with
zero evidence items returns the live score 10. -/
theorem reconstruction_matches_live_without_evidence_witness :
    calculateStrengthScore c4PointAfter.upvotes c4PointAfter.downvotes 0
      = c4Result.impact.newScore :=
  reconstruction_matches_live_without_evidence c4Store "a1" VoteType.up "u1"
    c4StoreAfter c4Result c4PointAfter c4_vote_eval rfl

/-- C2 counterexample: for one stored argument with one linked evidence
item (confidence 75, relevance 80) and no votes, the live path holds
strengthScore 7.3 (boost 2.3 onto the neutral 5.0) while reconstruction
computes 5.5 (0.5 per evidence item), so the live and rebuilt sessions
do not have identical derived per-argument strength scores. -/
theorem live_vs_reconstructed_counterexample :
    (attachEvidenceToArgument c2LiveArgument "e1"
        (calculateEvidenceStrengthBoost c2Evidence)).strengthScore = 73/10 ∧
    ((getDebateSession "s1" ["sol1"] [c2Point] [c2Evidence]).rounds.flatMap
        DebateRound.arguments).map DebateArgument.strengthScore = [11/2] ∧
    (73 : ℚ)/10 ≠ 11/2 := by
  refine ⟨?_, ?_, by norm_num⟩
  · rw [attachEvidence_strengthScore]
    norm_num [calculateEvidenceStrengthBoost, c2LiveArgument, c2Evidence, inf_eq_min, min_def]
  · simp only [getDebateSession, groupIntoRounds, reconstructedArgument, List.foldl_cons,
      List.foldl_nil, c2Point, c2Evidence]
    norm_num [List.mergeSort_singleton, evaluateRoundConsensus, calculateStrengthScore,
      inf_eq_min, min_def]

lemma progressPhase_characterize (s s2 : Session) (hp : progressPhase s = some s2) :
    s2.status = SessionStatus.in_progress ∧ s2.currentPhase = s.currentPhase + 1 ∧
    s2.completedPhases = s.completedPhases ++ [s.currentPhase] ∧ s.currentPhase < 6 := by
  unfold progressPhase at hp
  split at hp
  · exact absurd hp (by simp)
  · next hguard =>
      have hlt : s.currentPhase < 6 := by omega
      have hdec : decide (s.currentPhase + 1 > 6) = false := by
        simp only [decide_eq_false_iff_not, not_lt]
        omega
      simp only [hdec, Bool.false_eq_true, if_false, Option.some.injEq] at hp
      rw [← hp]
      exact ⟨rfl, rfl, rfl, hlt⟩

/-- C5: leaving phase 1 through the progress-phase route sets the status
to in_progress; on every session reachable through the two
session-mutating routes the status is completed only when the current
phase is 6; every step that sets the status to completed records phase
6 among the completed phases; and completing phase 6 by saving the
summary does set the status to completed. -/
theorem phase_status_spec :
    (∀ s s2 : Session, s.currentPhase = 1 → progressPhase s = some s2 →
      s2.status = SessionStatus.in_progress) ∧
    (∀ s : Session, ReachableSession s → s.status = SessionStatus.completed →
      s.currentPhase = 6) ∧
    (∀ s s2 : Session, SessionStep s s2 → s2.status = SessionStatus.completed →
      6 ∈ s2.completedPhases) ∧
    (∀ s : Session, (saveSummaryUpdate s).status = SessionStatus.completed ∧
      6 ∈ (saveSummaryUpdate s).completedPhases) := by
  refine ⟨?_, ?_, ?_, ?_⟩
  · intro s s2 _h1 h2
    exact (progressPhase_characterize s s2 h2).1
  · intro s hs
    induction hs with
    | init => intro h; exact absurd h (by simp [initialSession])
    | step s s2 _hr hstep _ih =>
        intro h2
        cases hstep with
        | progress _ hp =>
            rw [(progressPhase_characterize _ _ hp).1] at h2
            exact absurd h2 (by simp)
        | summary => rfl
  · intro s s2 hstep h2
    cases hstep with
    | progress _ hp =>
        rw [(progressPhase_characterize _ _ hp).1] at h2
        exact absurd h2 (by simp)
    | summary => simp [saveSummaryUpdate]
  · intro s
    exact ⟨rfl, by simp [saveSummaryUpdate]⟩

/-- Witness for C5: progressing the fresh session out of phase 1 gives
status in_progress, and the session reached by saving a summary has
status completed, current phase 6 and phase 6 recorded completed. -/
theorem phase_status_spec_witness :
    ({ currentPhase := 2, completedPhases := [1],
       status := SessionStatus.in_progress } : Session).status
      = SessionStatus.in_progress ∧
    (saveSummaryUpdate initialSession).currentPhase = 6 ∧
    6 ∈ (saveSummaryUpdate initialSession).completedPhases ∧
    (saveSummaryUpdate initialSession).status = SessionStatus.completed := by
  refine ⟨?_, ?_, ?_, ?_⟩
  · exact phase_status_spec.1 initialSession
      { currentPhase := 2, completedPhases := [1], status := SessionStatus.in_progress }
      rfl (by decide)
  · exact phase_status_spec.2.1 (saveSummaryUpdate initialSession)
      (ReachableSession.step initialSession (saveSummaryUpdate initialSession)
        ReachableSession.init (SessionStep.summary initialSession)) rfl
  · exact phase_status_spec.2.2.1 initialSession (saveSummaryUpdate initialSession)
      (SessionStep.summary initialSession) rfl
  · exact (phase_status_spec.2.2.2 initialSession).1

lemma pushEvidence_preserves_meta (args : List DebateArgument)
    (matcher : DebateArgument → Bool) (evidenceId : String) :
    (pushEvidenceToFirstMatch args matcher evidenceId).map
        (fun a => (a.agentRole, a.id, a.rebuttalTo))
      = args.map (fun a => (a.agentRole, a.id, a.rebuttalTo)) := by
  induction args with
  | nil => rfl
  | cons a rest ih =>
      simp only [pushEvidenceToFirstMatch]
      split
      · simp
      · simp [ih]

lemma attachGathered_preserves_meta (gathered : List ((DebateArgument → Bool) × String))
    (args : List DebateArgument) :
    (attachGatheredEvidence args gathered).map
        (fun a => (a.agentRole, a.id, a.rebuttalTo))
      = args.map (fun a => (a.agentRole, a.id, a.rebuttalTo)) := by
  induction gathered generalizing args with
  | nil => rfl
  | cons g rest ih =>
      have h1 : attachGatheredEvidence args (g :: rest)
          = attachGatheredEvidence (pushEvidenceToFirstMatch args g.1 g.2) rest := rfl
      rw [h1, ih, pushEvidence_preserves_meta]

/-- C9: in every round produced by the round conductor, round 1
included, the opponent argument rebuttalTo equals the id of the same
round proponent argument, both in the in-memory round and in the
persisted opponent insert row. -/
theorem conductDebateRound_rebuttal_spec (roundNumber : Nat) (solutionId sessionId : String)
    (gen : RoundGeneration) :
    ((conductDebateRound roundNumber solutionId sessionId gen).1.arguments.map
        (fun a => (a.agentRole, a.id, a.rebuttalTo)))
      = [(Role.proponent, gen.proponentId, none),
         (Role.opponent, gen.opponentId, some gen.proponentId)] ∧
    ((conductDebateRound roundNumber solutionId sessionId gen).2.2).rebuttalTo
      = some gen.proponentId := by
  constructor
  · simp only [conductDebateRound]
    rw [attachGathered_preserves_meta]
    rfl
  · rfl

/-- C10: reconstructing a session with no persisted debate arguments
yields an empty rounds list, zero total votes, low overall consensus
and a draw winning position. -/
theorem getDebateSession_empty_spec (sessionId : String) (solutionIds : List String)
    (evidence : List Evidence) :
    (getDebateSession sessionId solutionIds [] evidence).rounds = [] ∧
    (getDebateSession sessionId solutionIds [] evidence).totalVotes = 0 ∧
    (getDebateSession sessionId solutionIds [] evidence).overallConsensus = Consensus.low ∧
    (getDebateSession sessionId solutionIds [] evidence).winningPosition
      = some Position.draw := by
  refine ⟨?_, ?_, ?_, ?_⟩ <;>
    norm_num [getDebateSession, groupIntoRounds, evaluateConsensus, determineWinner,
      roleTotals, List.mergeSort_nil]

end AIThinkTank
